import Mathlib

/-!
Shallow embedding of the render-context core of a Liquid template engine
(`render/context.go`).  Go's mutable `map[string]interface\x7b\x7d` bindings are
modelled by explicit state passing: every operation that mutates the shared
bindings map returns the updated bindings alongside its ordinary result.
External collaborators (the parser, the expression evaluator, the file
system, the tag registry) are parameters of the model, as the source treats
them as opaque interfaces.
-/

namespace Liquid

/-- Dynamically-typed template value, modelling the Go `interface` values
stored in a bindings map.  `nil` is the zero value an absent map key
yields. -/
inductive Value where
  | nil
  | bool (b : Bool)
  | int (n : Int)
  | str (s : String)
deriving DecidableEq, Repr

/-- One scope bindings store: models the Go map from variable name to value
held by `nodeContext`.  An association list with shadowing prepend is the
state-passing model of the mutable map: `getBinding` sees the newest entry
for a name first. -/
abbrev Bindings := List (String × Value)

/-- Models Go map lookup `bindings[name]`: the newest entry wins, an absent
name yields the zero value `Value.nil`. -/
def getBinding : Bindings → String → Value
  | [], _ => Value.nil
  | (k, v) :: rest, name => if k == name then v else getBinding rest name

/-- Models Go map assignment `bindings[name] = value`: prepending shadows
every older entry for the same name, so `getBinding` observes the new
value. -/
def setBinding (b : Bindings) (name : String) (value : Value) : Bindings :=
  (name, value) :: b

/-- Character-list prefix test used by `strContains`. -/
def isPre : List Char → List Char → Bool
  | [], _ => true
  | _ :: _, [] => false
  | a :: as, b :: bs => a == b && isPre as bs

/-- Character-list substring test used by `strContains`. -/
def containsSub (pat : List Char) : List Char → Bool
  | [] => isPre pat []
  | c :: rest => isPre pat (c :: rest) || containsSub pat rest

/-- Models Go `strings.Contains(s, pat)`: true iff `pat` occurs as a
contiguous substring of `s`. -/
def strContains (s pat : String) : Bool :=
  containsSub pat.data s.data

/-- Outcome of one call to the external expression evaluator
`expression.EvaluateString`.  The evaluator either returns normally
(`ok` / `err`), or panics with a recognized `expression.InterpreterError`
(`panicInterp`), or panics with any other value (`panicOther`, carrying the
panic value formatted as a string, as Go's `%s` verb would). -/
inductive EvalOutcome where
  | ok (v : Value)
  | err (e : String)
  | panicInterp (e : String)
  | panicOther (e : String)
deriving DecidableEq, Repr

/-- Result of `renderContext.EvaluateString` as seen by its caller: a normal
`(value, error)` return (`ok` / `err`), or a re-raised panic (`fault`). -/
inductive EvalResult where
  | ok (v : Value)
  | err (e : String)
  | fault (e : String)
deriving DecidableEq, Repr

/-- A tag chunk: the name and raw argument text of one tag invocation, as
produced by the parser (`Chunk.Name`, `Chunk.Args` in the source). -/
structure Chunk where
  name : String
  args : String
deriving DecidableEq, Repr

/-- Modelled from the spec: the AST node shapes (`render/nodes.go` is not in
the excerpt).  Per the spec an AST is a sequence of text runs and tag
invocations; a functional node is a chunk, a block node additionally owns a
body of child nodes. -/
inductive AST where
  | text (s : String)
  | functional (chunk : Chunk)
  | block (chunk : Chunk) (body : List AST)

/-- Models Go `ASTFunctional`: a tag invocation with no body. -/
structure ASTFunctional where
  chunk : Chunk
deriving DecidableEq, Repr

/-- Models Go `ASTBlock`: the opening chunk plus an owned body of child
nodes. -/
structure ASTBlock where
  chunk : Chunk
  body : List AST

/-- Modelled from the spec: a tag's render behavior (the tag registry's
entries are external collaborators).  A behavior receives the invoking
chunk, the node's body, and the current bindings, and either fails or
produces output text together with the (possibly mutated) bindings. -/
def TagBehavior := Chunk → List AST → Bindings → Except String (String × Bindings)

/-- Modelled from the spec: the render settings (`renderSettings` is not in
the excerpt).  `parse` is the external parser `Parse(source) → (AST, error)`;
`evalExpr` is the external expression evaluator with the expression
configuration baked in; `tags` is the tag registry, mapping a tag name to
its render behavior. -/
structure Settings where
  parse : String → Except String (List AST)
  evalExpr : String → Bindings → EvalOutcome
  tags : String → Option TagBehavior

/-- Models Go `nodeContext`: one bindings store plus the shared settings. -/
structure nodeContext where
  bindings : Bindings
  settings : Settings

/-- Models Go `renderContext`: a node context plus at most one current-node
reference — `node` for a functional node, `cn` for a block node. -/
structure renderContext where
  ctx : nodeContext
  node : Option ASTFunctional
  cn : Option ASTBlock

/-- Modelled from the spec: `nodeContext.RenderASTSequence` / `renderNode`
(not in the excerpt).  Renders nodes left to right: text is written
verbatim; a tag invocation looks up the tag's behavior by name and invokes
it; the first failure aborts the rest.  Output and the threaded bindings
are returned; no scope is cloned here — the spec gives cloning to tags
that ask for it, not to sequence rendering. -/
def renderSeq (tags : String → Option TagBehavior) :
    List AST → Bindings → Except String (String × Bindings)
  | [], b => .ok ("", b)
  | AST.text s :: rest, b =>
    match renderSeq tags rest b with
    | .error e => .error e
    | .ok (out, b') => .ok (s ++ out, b')
  | AST.functional ch :: rest, b =>
    match tags ch.name with
    | none => .error ("undefined tag " ++ ch.name)
    | some beh =>
      match beh ch [] b with
      | .error e => .error e
      | .ok (out, b1) =>
        match renderSeq tags rest b1 with
        | .error e => .error e
        | .ok (out2, b2) => .ok (out ++ out2, b2)
  | AST.block ch body :: rest, b =>
    match tags ch.name with
    | none => .error ("undefined tag " ++ ch.name)
    | some beh =>
      match beh ch body b with
      | .error e => .error e
      | .ok (out, b1) =>
        match renderSeq tags rest b1 with
        | .error e => .error e
        | .ok (out2, b2) => .ok (out ++ out2, b2)

/-- Models `renderContext.Get`: Go map lookup on the context's bindings. -/
def renderContext.Get (c : renderContext) (name : String) : Value :=
  getBinding c.ctx.bindings name

/-- Models `renderContext.Set`: Go map assignment on the context's bindings;
in the state-passing model the updated context is returned. -/
def renderContext.Set (c : renderContext) (name : String) (value : Value) :
    renderContext :=
  { c with ctx := { c.ctx with bindings := setBinding c.ctx.bindings name value } }

/-- Models `renderContext.UpdateBindings`: merges each pair into the current
bindings in turn. -/
def renderContext.UpdateBindings (c : renderContext) (bs : List (String × Value)) :
    renderContext :=
  bs.foldl (fun acc kv => renderContext.Set acc kv.1 kv.2) c

/-- Models `renderContext.EvaluateString`: calls the expression evaluator
and applies the deferred `recover` boundary of the source — a recovered
`InterpreterError` panic becomes an ordinary error return, any other panic
is re-raised wrapped as `"<e> during evaluation of <source>"`. -/
def renderContext.EvaluateString (c : renderContext) (source : String) : EvalResult :=
  match c.ctx.settings.evalExpr source c.ctx.bindings with
  | .ok v => .ok v
  | .err e => .err e
  | .panicInterp e => .err e
  | .panicOther e => .fault (e ++ " during evaluation of " ++ source)

/-- Models `renderContext.EvaluateStatement`: evaluates
`fmt.Sprintf("%%%s %s", tag, source)`, i.e. `"%" ++ tag ++ " " ++ source`,
through `EvaluateString`. -/
def renderContext.EvaluateStatement (c : renderContext) (tag source : String) :
    EvalResult :=
  renderContext.EvaluateString c ("%" ++ tag ++ " " ++ source)

/-- Models `renderContext.TagName`: the Go switch prefers the functional
node, then the block node, then the empty string. -/
def renderContext.TagName (c : renderContext) : String :=
  match c.node with
  | some f => f.chunk.name
  | none =>
    match c.cn with
    | some b => b.chunk.name
    | none => ""

/-- Models `renderContext.TagArgs`: the Go switch prefers the functional
node, then the block node, then the empty string. -/
def renderContext.TagArgs (c : renderContext) : String :=
  match c.node with
  | some f => f.chunk.args
  | none =>
    match c.cn with
    | some b => b.chunk.args
    | none => ""

/-- Models `renderContext.RenderChild`: renders an arbitrary block node's
body with the current bindings.  The written bytes are returned as a
string in place of the Go writer. -/
def renderContext.RenderChild (c : renderContext) (b : ASTBlock) :
    Except String (String × Bindings) :=
  renderSeq c.ctx.settings.tags b.body c.ctx.bindings

/-- Models `renderContext.RenderChildren`: if the current node has no body
(`cn == nil`) return nil having written nothing; otherwise render the
block's body with the current bindings. -/
def renderContext.RenderChildren (c : renderContext) :
    Except String (String × Bindings) :=
  match c.cn with
  | none => .ok ("", c.ctx.bindings)
  | some blk => renderSeq c.ctx.settings.tags blk.body c.ctx.bindings

/-- Models `renderContext.InnerString`: renders the children into an
in-memory buffer and returns the accumulated string (already the shape of
the modelled `RenderChildren`). -/
def renderContext.InnerString (c : renderContext) :
    Except String (String × Bindings) :=
  renderContext.RenderChildren c

/-- Models `renderContext.ParseTagArgs`: if the raw argument text contains
the two-character interpolation delimiter, parse it as a mini-template and
render it against the current bindings, propagating any parse or render
error; otherwise return the raw text unchanged. -/
def renderContext.ParseTagArgs (c : renderContext) :
    Except String (String × Bindings) :=
  let args := renderContext.TagArgs c
  if strContains args "\x7b\x7b" then
    match c.ctx.settings.parse args with
    | .error e => .error e
    | .ok ast =>
      match renderSeq c.ctx.settings.tags ast c.ctx.bindings with
      | .error e => .error e
      | .ok (out, b') => .ok (out, b')
  else
    .ok (args, c.ctx.bindings)

/-- The file system collaborator of `RenderFile`: models `ioutil.ReadFile`,
returning the file's contents or a read error. -/
def FileRead := String → Except String String

/-- The error returned by `RenderFile`, tagged by the stage that produced
it (the Go error values of the three stages are distinguishable by type). -/
inductive FileError where
  | ioErr (e : String)
  | parseErr (e : String)
  | renderErr (e : String)
deriving DecidableEq, Repr

/-- Models `renderContext.RenderFile`: read the file, parse it, and render
the parsed template against the current node context's bindings (the same
bindings, not a clone).  Each failing stage returns `("", err)` at once;
success returns the rendered string and the bindings as mutated by the
included render.  (Partial binding mutations of a failed render are not
modelled.) -/
def renderContext.RenderFile (fs : FileRead) (c : renderContext)
    (filename : String) : (String × Bindings) × Option FileError :=
  match fs filename with
  | .error e => (("", c.ctx.bindings), some (FileError.ioErr e))
  | .ok source =>
    match c.ctx.settings.parse source with
    | .error e => (("", c.ctx.bindings), some (FileError.parseErr e))
    | .ok ast =>
      match renderSeq c.ctx.settings.tags ast c.ctx.bindings with
      | .error e => (("", c.ctx.bindings), some (FileError.renderErr e))
      | .ok (out, b') => ((out, b'), none)

/-- String form of a value, used by the demo `echo` tag behavior below. -/
def valueToStr : Value → String
  | .nil => ""
  | .bool true => "true"
  | .bool false => "false"
  | .int n => toString n
  | .str s => s

/-- Demo tag behavior: writes the value currently bound to the name given
as its raw argument text. -/
def echoBehavior : TagBehavior :=
  fun ch _ b => .ok (valueToStr (getBinding b ch.args), b)

/-- Demo tag behavior: an assignment tag that binds `x` to `1` in the scope
it is rendered in. -/
def assignOneBehavior : TagBehavior :=
  fun _ _ b => .ok ("", setBinding b "x" (Value.int 1))

/-- Demo tag registry. -/
def demoTags : String → Option TagBehavior := fun n =>
  if n == "echo" then some echoBehavior
  else if n == "assignone" then some assignOneBehavior
  else none

/-- Demo parser: maps a few fixed source strings to known ASTs and fails on
everything else. -/
def demoParse : String → Except String (List AST) := fun s =>
  if s == "\x7b\x7b name \x7d\x7d" then .ok [AST.functional ⟨"echo", "name"⟩]
  else if s == "SETX" then .ok [AST.functional ⟨"assignone", ""⟩]
  else if s == "SHOWX" then .ok [AST.functional ⟨"echo", "x"⟩]
  else .error ("parse error: " ++ s)

/-- Demo expression evaluator: two sources that panic, everything else
looks itself up in the bindings. -/
def demoEval : String → Bindings → EvalOutcome := fun s b =>
  if s == "panicI" then .panicInterp "bad filter"
  else if s == "panicO" then .panicOther "index out of range"
  else .ok (getBinding b s)

/-- Demo settings bundling the demo collaborators. -/
def demoSettings : Settings := ⟨demoParse, demoEval, demoTags⟩

/-- Demo file system with two readable templates, one unparsable file, and
read errors elsewhere. -/
def demoFS : FileRead := fun f =>
  if f == "inc.tpl" then .ok "SETX"
  else if f == "show.tpl" then .ok "SHOWX"
  else if f == "bad.tpl" then .ok "OOPS"
  else .error ("open " ++ f ++ ": no such file")

/-- Demo context for a functional tag whose raw argument text has no
interpolation delimiter. -/
def ctxPlainInclude : renderContext :=
  ⟨⟨[("y", Value.int 7)], demoSettings⟩, some ⟨⟨"include", "a.tpl"⟩⟩, none⟩

/-- Demo context for a functional tag whose raw argument text is the
interpolation `\x7b\x7b name \x7d\x7d`, with `name` bound to `"x"`. -/
def ctxInterp : renderContext :=
  ⟨⟨[("name", Value.str "x")], demoSettings⟩,
    some ⟨⟨"include", "\x7b\x7b name \x7d\x7d"⟩⟩, none⟩

/-- Demo context with `x` bound to `"v"` in the calling scope. -/
def ctxShow : renderContext :=
  ⟨⟨[("x", Value.str "v")], demoSettings⟩, none, none⟩

/-- Demo context with empty bindings and no current node. -/
def ctxInc : renderContext :=
  ⟨⟨[], demoSettings⟩, none, none⟩

/-- Demo context carrying both a functional-node reference and a block-node
reference with distinct chunks. -/
def ctxBoth : renderContext :=
  ⟨⟨[], demoSettings⟩, some ⟨⟨"fn", "fa"⟩⟩, some ⟨⟨"bn", "ba"⟩, []⟩⟩

/-- A name bound by no entry of a bindings list looks up to `Value.nil`. -/
theorem getBinding_unbound (b : Bindings) (n : String)
    (h : ∀ kv ∈ b, kv.1 ≠ n) : getBinding b n = Value.nil := by
  induction b with
  | nil => rfl
  | cons kv rest ih =>
    obtain ⟨k, v⟩ := kv
    have hk : k ≠ n := h (k, v) (List.mem_cons_self _ _)
    simp only [getBinding, beq_iff_eq, if_neg hk]
    exact ih fun p hp => h p (List.mem_cons_of_mem _ hp)

/-- C1: `EvaluateString` confines the evaluator's panic-based failure mode:
a recognized interpreter-level evaluation error panic is returned as an
ordinary error value (the fault never escapes the call); any other panic is
re-raised as a fault wrapped with the offending source text; and every
fault that crosses the boundary carries that annotation. -/
theorem evaluateString_confines_faults (c : renderContext) (source : String) :
    (∀ e, c.ctx.settings.evalExpr source c.ctx.bindings = EvalOutcome.panicInterp e →
      renderContext.EvaluateString c source = EvalResult.err e)
    ∧ (∀ e, c.ctx.settings.evalExpr source c.ctx.bindings = EvalOutcome.panicOther e →
      renderContext.EvaluateString c source
        = EvalResult.fault (e ++ " during evaluation of " ++ source))
    ∧ (∀ f, renderContext.EvaluateString c source = EvalResult.fault f →
      ∃ e, c.ctx.settings.evalExpr source c.ctx.bindings = EvalOutcome.panicOther e
        ∧ f = e ++ " during evaluation of " ++ source) := by
  refine ⟨fun e h => ?_, fun e h => ?_, fun f h => ?_⟩
  · unfold renderContext.EvaluateString
    rw [h]
  · unfold renderContext.EvaluateString
    rw [h]
  · unfold renderContext.EvaluateString at h
    rcases hE : c.ctx.settings.evalExpr source c.ctx.bindings with v | e | e | e <;>
      rw [hE] at h
    · cases h
    · cases h
    · cases h
    · injection h with h'
      exact ⟨e, rfl, h'.symm⟩

/-- C1 witness: with the demo evaluator, the source `"panicI"` panics with a
recognized evaluation error and is returned as an ordinary error, while
`"panicO"` panics with another fault and is re-raised annotated with the
source text. -/
theorem evaluateString_confines_faults_witness :
    renderContext.EvaluateString ctxPlainInclude "panicI" = EvalResult.err "bad filter"
    ∧ renderContext.EvaluateString ctxPlainInclude "panicO"
      = EvalResult.fault "index out of range during evaluation of panicO" :=
  ⟨(evaluateString_confines_faults ctxPlainInclude "panicI").1 "bad filter" rfl,
    (evaluateString_confines_faults ctxPlainInclude "panicO").2.1 "index out of range" rfl⟩

/-- C2: `ParseTagArgs` returns the raw argument text unchanged with no
error when it has no `\x7b\x7b` delimiter; when it does contain the
delimiter, `ParseTagArgs` parses the text as a nested mini-template and
renders it against the current bindings, propagating any parse or render
error. -/
theorem parseTagArgs_interpolation (c : renderContext) :
    (strContains (renderContext.TagArgs c) "\x7b\x7b" = false →
      renderContext.ParseTagArgs c = .ok (renderContext.TagArgs c, c.ctx.bindings))
    ∧ (strContains (renderContext.TagArgs c) "\x7b\x7b" = true →
      renderContext.ParseTagArgs c =
        match c.ctx.settings.parse (renderContext.TagArgs c) with
        | .error e => .error e
        | .ok ast =>
          match renderSeq c.ctx.settings.tags ast c.ctx.bindings with
          | .error e => .error e
          | .ok (out, b') => .ok (out, b')) := by
  unfold renderContext.ParseTagArgs
  constructor <;> intro h <;> simp [h]

/-- C2 witness: an argument text without the delimiter comes back
unchanged; the argument text `\x7b\x7b name \x7d\x7d` with `name` bound to
`"x"` renders to `"x"`. -/
theorem parseTagArgs_interpolation_witness :
    renderContext.ParseTagArgs ctxPlainInclude
      = .ok ("a.tpl", ctxPlainInclude.ctx.bindings)
    ∧ renderContext.ParseTagArgs ctxInterp
      = .ok ("x", [("name", Value.str "x")]) :=
  ⟨(parseTagArgs_interpolation ctxPlainInclude).1 rfl,
    ((parseTagArgs_interpolation ctxInterp).2 rfl).trans rfl⟩

/-- C3: each stage of `RenderFile` surfaces its own error and aborts the
later stages: a read failure yields the empty string and that read error
(never a parse or render error), a parse failure yields the parse error,
and a render failure yields the render error. -/
theorem renderFile_stage_errors (fs : FileRead) (c : renderContext) (filename : String) :
    (∀ e, fs filename = .error e →
      renderContext.RenderFile fs c filename
        = (("", c.ctx.bindings), some (FileError.ioErr e)))
    ∧ (∀ src e, fs filename = .ok src → c.ctx.settings.parse src = .error e →
      renderContext.RenderFile fs c filename
        = (("", c.ctx.bindings), some (FileError.parseErr e)))
    ∧ (∀ src ast e, fs filename = .ok src → c.ctx.settings.parse src = .ok ast →
      renderSeq c.ctx.settings.tags ast c.ctx.bindings = .error e →
      renderContext.RenderFile fs c filename
        = (("", c.ctx.bindings), some (FileError.renderErr e))) := by
  refine ⟨fun e h => ?_, fun src e h1 h2 => ?_, fun src ast e h1 h2 h3 => ?_⟩
  · simp only [renderContext.RenderFile, h]
  · simp only [renderContext.RenderFile, h1, h2]
  · simp only [renderContext.RenderFile, h1, h2, h3]

/-- C3 witness: reading `missing.tpl` fails and `RenderFile` returns the
empty string with the read error; `bad.tpl` is readable but unparsable and
`RenderFile` returns the parse error. -/
theorem renderFile_stage_errors_witness :
    renderContext.RenderFile demoFS ctxInc "missing.tpl"
      = (("", ctxInc.ctx.bindings), some (FileError.ioErr "open missing.tpl: no such file"))
    ∧ renderContext.RenderFile demoFS ctxInc "bad.tpl"
      = (("", ctxInc.ctx.bindings), some (FileError.parseErr "parse error: OOPS")) :=
  ⟨(renderFile_stage_errors demoFS ctxInc "missing.tpl").1
      "open missing.tpl: no such file" rfl,
    (renderFile_stage_errors demoFS ctxInc "bad.tpl").2.1
      "OOPS" "parse error: OOPS" rfl rfl⟩

/-- C4: on a successful read and parse, `RenderFile` renders the included
template against exactly the current bindings of the calling render
context (the same bindings value, not a copy), so the included file
observes every binding visible in the including scope. -/
theorem renderFile_current_bindings (fs : FileRead) (c : renderContext)
    (filename src : String) (ast : List AST)
    (h1 : fs filename = .ok src) (h2 : c.ctx.settings.parse src = .ok ast) :
    renderContext.RenderFile fs c filename
      = match renderSeq c.ctx.settings.tags ast c.ctx.bindings with
        | .error e => (("", c.ctx.bindings), some (FileError.renderErr e))
        | .ok (out, b') => ((out, b'), none) := by
  simp only [renderContext.RenderFile, h1, h2]

/-- C4 witness: the included template `show.tpl` echoes the binding `x`
of the including scope and renders to that binding's value `"v"`. -/
theorem renderFile_current_bindings_witness :
    renderContext.RenderFile demoFS ctxShow "show.tpl"
      = (("v", [("x", Value.str "v")]), none) :=
  (renderFile_current_bindings demoFS ctxShow "show.tpl" "SHOWX"
    [AST.functional ⟨"echo", "x"⟩] rfl rfl).trans rfl

/-- C5 counterexample: before the call `x` is unbound (`Value.nil`) in the
calling scope; rendering `inc.tpl`, whose only node is an assignment tag,
succeeds, and afterwards the calling context's bindings bind `x` to `1` —
the write made inside the included template altered the including scope,
refuting write isolation. -/
theorem renderFile_write_isolation_counterexample :
    renderContext.Get ctxInc "x" = Value.nil
    ∧ (renderContext.RenderFile demoFS ctxInc "inc.tpl").2 = none
    ∧ getBinding (renderContext.RenderFile demoFS ctxInc "inc.tpl").1.2 "x"
      = Value.int 1 :=
  ⟨rfl, rfl, rfl⟩

/-- C5 (amended): file inclusion does not establish a write-isolated scope:
`RenderFile` renders the included template against the same node context,
so the bindings produced by the included render — including every `Set` or
`UpdateBindings` write made inside it — are exactly the bindings of the
calling scope after the call. -/
theorem renderFile_writes_reach_caller (fs : FileRead) (c : renderContext)
    (filename src : String) (ast : List AST) (out : String) (b' : Bindings)
    (h1 : fs filename = .ok src) (h2 : c.ctx.settings.parse src = .ok ast)
    (h3 : renderSeq c.ctx.settings.tags ast c.ctx.bindings = .ok (out, b')) :
    renderContext.RenderFile fs c filename = ((out, b'), none) := by
  simp only [renderContext.RenderFile, h1, h2, h3]

/-- C5 witness: including `inc.tpl` from a scope with empty bindings
returns the bindings mutated by the included assignment tag. -/
theorem renderFile_writes_reach_caller_witness :
    renderContext.RenderFile demoFS ctxInc "inc.tpl"
      = (("", [("x", Value.int 1)]), none) :=
  renderFile_writes_reach_caller demoFS ctxInc "inc.tpl" "SETX"
    [AST.functional ⟨"assignone", ""⟩] "" [("x", Value.int 1)] rfl rfl rfl

/-- C6: `Set(n, v)` followed by `Get(n)` returns exactly `v`, and `Set`
overwrites any prior binding of `n` — after overwriting, only the new
value is observable via `Get`. -/
theorem set_then_get (c : renderContext) (n : String) (v : Value) :
    renderContext.Get (renderContext.Set c n v) n = v
    ∧ ∀ w : Value,
      renderContext.Get (renderContext.Set (renderContext.Set c n w) n v) n = v := by
  constructor
  · simp [renderContext.Get, renderContext.Set, setBinding, getBinding]
  · intro w
    simp [renderContext.Get, renderContext.Set, setBinding, getBinding]

/-- C7: `Get` of a name bound nowhere in the context's bindings returns the
absent representation `Value.nil`; being a total function, it never raises
an error or fault. -/
theorem get_unbound_is_nil (c : renderContext) (n : String)
    (h : ∀ kv ∈ c.ctx.bindings, kv.1 ≠ n) :
    renderContext.Get c n = Value.nil :=
  getBinding_unbound c.ctx.bindings n h

/-- C7 witness: `zzz` is bound by no entry of `ctxShow`'s bindings and
`Get` returns `Value.nil` on it. -/
theorem get_unbound_is_nil_witness :
    renderContext.Get ctxShow "zzz" = Value.nil :=
  get_unbound_is_nil ctxShow "zzz" (by decide)

/-- C8: `EvaluateStatement(tag, source)` returns exactly the result of
`EvaluateString` on the statement string `"%" ++ tag ++ " " ++ source`,
with identical value and error behavior. -/
theorem evaluateStatement_delegates (c : renderContext) (tag source : String) :
    renderContext.EvaluateStatement c tag source
      = renderContext.EvaluateString c ("%" ++ tag ++ " " ++ source) := rfl

/-- C9: when the current node has no body (the block-node reference is
empty), `RenderChildren` returns no error and writes nothing, and
`InnerString` returns the empty string with no error. -/
theorem renderChildren_no_body (c : renderContext) (h : c.cn = none) :
    renderContext.RenderChildren c = .ok ("", c.ctx.bindings)
    ∧ renderContext.InnerString c = .ok ("", c.ctx.bindings) := by
  unfold renderContext.InnerString renderContext.RenderChildren
  rw [h]
  exact ⟨rfl, rfl⟩

/-- C9 witness: `ctxPlainInclude` wraps a functional node with no block
body, and both `RenderChildren` and `InnerString` are error-free no-ops. -/
theorem renderChildren_no_body_witness :
    renderContext.RenderChildren ctxPlainInclude
      = .ok ("", ctxPlainInclude.ctx.bindings)
    ∧ renderContext.InnerString ctxPlainInclude
      = .ok ("", ctxPlainInclude.ctx.bindings) :=
  renderChildren_no_body ctxPlainInclude rfl

/-- C10: with both node references empty, `TagName` and `TagArgs` each
return the empty string rather than failing; and whenever a
functional-node reference is present it takes precedence over any
block-node reference for both accessors. -/
theorem tag_accessors_total (c : renderContext) :
    (c.node = none → c.cn = none →
      renderContext.TagName c = "" ∧ renderContext.TagArgs c = "")
    ∧ ∀ f, c.node = some f →
      renderContext.TagName c = f.chunk.name ∧ renderContext.TagArgs c = f.chunk.args := by
  constructor
  · intro h1 h2
    unfold renderContext.TagName renderContext.TagArgs
    rw [h1, h2]
    exact ⟨rfl, rfl⟩
  · intro f h
    unfold renderContext.TagName renderContext.TagArgs
    rw [h]
    exact ⟨rfl, rfl⟩

/-- C10 witness: the empty context yields `""` for both accessors; a
context carrying both a functional node `fn` and a block node `bn` reports
the functional node's name and arguments. -/
theorem tag_accessors_total_witness :
    (renderContext.TagName ctxInc = "" ∧ renderContext.TagArgs ctxInc = "")
    ∧ (renderContext.TagName ctxBoth = "fn" ∧ renderContext.TagArgs ctxBoth = "fa") :=
  ⟨(tag_accessors_total ctxInc).1 rfl rfl,
    (tag_accessors_total ctxBoth).2 ⟨⟨"fn", "fa"⟩⟩ rfl⟩

end Liquid
